import Mathlib

/-!
Verification of the media session control surface
(`src/components/script/dom/mediasession.rs`).

Floating point `Finite<f64>` values (which exclude NaN and infinities) are
embedded as rationals `ℚ`: the code only compares them and stores them, so
their order structure is all that matters.

The session's collaborators (`HTMLMediaElement` as the playback instance,
the handler callbacks, the outbound embedder channel) are not part of the
embedded source file; they are modelled from the spec where marked, with
each operating surface reduced to the state fields and call traces the
session code can observe.
-/

namespace MediaSessionModel

/-- Embeds `embedder_traits::MediaMetadata` (title, artist, album strings). -/
structure EmbedderMediaMetadata where
  title : String
  artist : String
  album : String
deriving DecidableEq, Repr

/-- Modelled from the spec: `EmbedderMediaMetadata::new(title)` (not under
`src/`) builds a metadata value with the given title and empty artist and
album, per the spec sentence "stores `Metadata{title=fallback_title,
artist="", album=""}`". -/
def EmbedderMediaMetadata.new (title : String) : EmbedderMediaMetadata :=
  { title := title, artist := "", album := "" }

/-- The DOM `MediaMetadata` argument of `SetMetadata` / result of
`GetMetadata`, reduced to its three string accessors `Title`, `Artist`,
`Album`. -/
structure MediaMetadata where
  title : String
  artist : String
  album : String
deriving DecidableEq, Repr

/-- `MediaSessionPlaybackState` enum. -/
inductive MediaSessionPlaybackState where
  | None
  | Playing
  | Paused
deriving DecidableEq, Repr

/-- `script_traits::MediaSessionActionType`: the closed set of action kinds. -/
inductive MediaSessionActionType where
  | Play
  | Pause
  | SeekBackward
  | SeekForward
  | PreviousTrack
  | NextTrack
  | SkipAd
  | Stop
  | SeekTo
deriving DecidableEq, Repr

/-- `embedder_traits::MediaSessionEvent`, restricted to the one variant this
file emits (`SetMetadata`). -/
inductive MediaSessionEvent where
  | SetMetadata (metadata : EmbedderMediaMetadata)
deriving DecidableEq, Repr

/-- Errors surfaced by the session operations. `typeError msg` embeds
`Error::Type(msg)` thrown by validation. `rateRejected` stands for the
error a fallible `HTMLMediaElement::SetPlaybackRate` call may return;
its concrete value lives outside the embedded source (the spec only says
`set_playback_rate(float) -> Result<(), Error>` and that the error
"propagates as-is"). -/
inductive Error where
  | typeError (msg : String)
  | rateRejected
deriving DecidableEq, Repr

/-- Modelled from the spec: the `PlaybackInstance` collaborator
(`HTMLMediaElement`, not under `src/`), reduced to the state the session
code touches: duration, playback rate, current time, a paused flag for
play/pause, a position-tracking flag for `reset()`, and a predicate
`rejectsRate` choosing which rates its fallible `SetPlaybackRate`
rejects. -/
structure HTMLMediaElement where
  duration : ℚ
  playbackRate : ℚ
  currentTime : ℚ
  paused : Bool
  positionTrackingActive : Bool
  rejectsRate : ℚ → Bool

/-- Modelled from the spec: the instance's play operation. -/
def HTMLMediaElement.Play (m : HTMLMediaElement) : HTMLMediaElement :=
  { m with paused := false }

/-- Modelled from the spec: the instance's pause operation. -/
def HTMLMediaElement.Pause (m : HTMLMediaElement) : HTMLMediaElement :=
  { m with paused := true }

/-- Modelled from the spec: `reset_position_tracking()`
(`media_instance.reset()` in the source), which clears position tracking
and touches nothing else. -/
def HTMLMediaElement.reset (m : HTMLMediaElement) : HTMLMediaElement :=
  { m with positionTrackingActive := false }

/-- Modelled from the spec: `set_duration(float)`. -/
def HTMLMediaElement.set_duration (m : HTMLMediaElement) (d : ℚ) :
    HTMLMediaElement :=
  { m with duration := d }

/-- Modelled from the spec: `set_playback_rate(float) -> Result<(), Error>`;
the call may fail, in which case the instance is left unchanged. -/
def HTMLMediaElement.SetPlaybackRate (m : HTMLMediaElement) (r : ℚ) :
    Except Error Unit × HTMLMediaElement :=
  if m.rejectsRate r then (Except.error Error.rateRejected, m)
  else (Except.ok (), { m with playbackRate := r })

/-- Modelled from the spec: `set_current_time(float)`. -/
def HTMLMediaElement.SetCurrentTime (m : HTMLMediaElement) (t : ℚ) :
    HTMLMediaElement :=
  { m with currentTime := t }

/-- `MediaPositionState` dictionary: all three fields optional. -/
structure MediaPositionState where
  duration : Option ℚ
  position : Option ℚ
  playbackRate : Option ℚ
deriving DecidableEq, Repr

/-- A call made by the session on the bound playback instance; outcomes
record these in order so "which instance operations ran" is provable. -/
inductive InstanceCall where
  | play
  | pause
  | resetPositionTracking
  | setDuration (d : ℚ)
  | setPlaybackRate (r : ℚ)
  | setCurrentTime (t : ℚ)
deriving DecidableEq, Repr

/-- Outcome of `SetPositionState`: the returned `Fallible<()>`, the bound
instance after the call (`none` when none was bound), and the ordered
trace of instance calls made. -/
structure SPSOutcome where
  result : Except Error Unit
  mediaInstance : Option HTMLMediaElement
  calls : List InstanceCall

/-- Embeds `MediaSession::SetPositionState` (mediasession.rs lines
200-253). `mi` is the value of `self.media_instance` (`none` when no
instance is bound). The session's own fields (metadata, playback state,
handler registry) are not read or written by this method, so they do not
appear in its signature. -/
def SetPositionState (mi : Option HTMLMediaElement)
    (state : MediaPositionState) : SPSOutcome :=
  -- If the state is an empty dictionary then clear the position state.
  if state.duration = none ∧ state.position = none ∧ state.playbackRate = none
  then
    match mi with
    | some media_instance =>
        ⟨Except.ok (), some media_instance.reset,
          [InstanceCall.resetPositionTracking]⟩
    | none => ⟨Except.ok (), none, []⟩
  -- If the duration is not present or its value is null, throw a TypeError.
  else if state.duration = none then
    ⟨Except.error
        (Error.typeError "duration is not present or its value is null"),
      mi, []⟩
  -- If the duration is negative, throw a TypeError.
  else if state.duration.any (fun d => decide (d < 0)) then
    ⟨Except.error (Error.typeError "duration is negative"), mi, []⟩
  -- If the position is negative or greater than duration, throw a TypeError.
  else if state.position.any (fun p => decide (p < 0)) then
    ⟨Except.error (Error.typeError "position is negative"), mi, []⟩
  else if (match state.position, state.duration with
           | some p, some d => decide (p > d)
           | _, _ => false) then
    ⟨Except.error (Error.typeError "position is greater than duration"),
      mi, []⟩
  -- If the playbackRate is zero throw a TypeError.
  else if state.playbackRate.any (fun r => decide (r ≤ 0)) then
    ⟨Except.error (Error.typeError "playbackRate is zero"), mi, []⟩
  else
    -- Update the position state and last position updated time.
    match mi with
    | some media_instance =>
        let d := state.duration.getD 0
        let m1 := media_instance.set_duration d
        -- If the playbackRate is not present or its value is null, set it
        -- to 1.0.
        let r := state.playbackRate.getD 1
        match m1.SetPlaybackRate r with
        | (Except.error e, m2) =>
            ⟨Except.error e, some m2,
              [InstanceCall.setDuration d, InstanceCall.setPlaybackRate r]⟩
        | (Except.ok (), m2) =>
            -- If the position is not present or its value is null, set it
            -- to zero.
            let t := state.position.getD 0
            ⟨Except.ok (), some (m2.SetCurrentTime t),
              [InstanceCall.setDuration d, InstanceCall.setPlaybackRate r,
                InstanceCall.setCurrentTime t]⟩
    | none => ⟨Except.ok (), none, []⟩

/-- Modelled from the spec: a registered `MediaSessionActionHandler`
callback, reduced to the one observable the session code reads — whether
`Call__(ExceptionHandling::Report)` succeeds or returns an error. -/
structure Handler where
  succeeds : Bool
deriving DecidableEq, Repr

/-- An observable step of `handle_action`: invoking a registered custom
handler, emitting the warning log when that invocation fails, or a call on
the bound playback instance. -/
inductive ActionEffect where
  | invokeHandler (action : MediaSessionActionType)
  | warnHandlerError
  | instanceCall (c : InstanceCall)
deriving DecidableEq, Repr

/-- Outcome of `handle_action`: the bound instance after the call and the
ordered trace of observable effects. -/
structure ActionOutcome where
  mediaInstance : Option HTMLMediaElement
  effects : List ActionEffect

/-- Embeds `MediaSession::handle_action` (mediasession.rs lines 74-103).
`handlers` is the `action_handlers` registry lookup (`HashMap::get`
embedded as a function to `Option Handler`), `mi` the bound instance. -/
def handle_action (handlers : MediaSessionActionType → Option Handler)
    (mi : Option HTMLMediaElement) (action : MediaSessionActionType) :
    ActionOutcome :=
  match handlers action with
  | some handler =>
      -- The handler, when registered, is invoked and the method returns:
      -- an invocation error only produces a warning log.
      if handler.succeeds then
        ⟨mi, [ActionEffect.invokeHandler action]⟩
      else
        ⟨mi, [ActionEffect.invokeHandler action, ActionEffect.warnHandlerError]⟩
  | none =>
      -- Default action.
      match mi with
      | some media =>
          match action with
          | MediaSessionActionType.Play =>
              ⟨some media.Play, [ActionEffect.instanceCall InstanceCall.play]⟩
          | MediaSessionActionType.Pause =>
              ⟨some media.Pause, [ActionEffect.instanceCall InstanceCall.pause]⟩
          | MediaSessionActionType.SeekBackward => ⟨some media, []⟩
          | MediaSessionActionType.SeekForward => ⟨some media, []⟩
          | MediaSessionActionType.PreviousTrack => ⟨some media, []⟩
          | MediaSessionActionType.NextTrack => ⟨some media, []⟩
          | MediaSessionActionType.SkipAd => ⟨some media, []⟩
          | MediaSessionActionType.Stop => ⟨some media, []⟩
          | MediaSessionActionType.SeekTo => ⟨some media, []⟩
      | none => ⟨none, []⟩

/-- The `MediaSession` fields the metadata operations read and write:
the stored metadata and the playback state. The handler registry and the
instance binding are passed to the operations that use them. -/
structure MediaSession where
  metadata : Option EmbedderMediaMetadata
  playback_state : MediaSessionPlaybackState
deriving DecidableEq, Repr

/-- Embeds `MediaSession::GetMetadata` (mediasession.rs lines 132-143):
builds a fresh DOM `MediaMetadata` from the stored value, or `none`. -/
def GetMetadata (s : MediaSession) : Option MediaMetadata :=
  match s.metadata with
  | some metadata =>
      some { title := metadata.title, artist := metadata.artist,
             album := metadata.album }
  | none => none

/-- Embeds `MediaSession::SetMetadata` (mediasession.rs lines 146-172).
`window_url` is `window.get_url().into_string()`. Returns the updated
session together with the events sent to the embedder. -/
def SetMetadata (s : MediaSession) (window_url : String)
    (metadata : Option MediaMetadata) :
    MediaSession × List MediaSessionEvent :=
  let upd : EmbedderMediaMetadata :=
    match metadata with
    | some m =>
        { title := if m.title.isEmpty then window_url else m.title,
          artist := m.artist, album := m.album }
    | none => EmbedderMediaMetadata.new window_url
  ({ s with metadata := some upd }, [MediaSessionEvent.SetMetadata upd])

/-- Embeds `MediaSession::update_title` (mediasession.rs lines 112-127).
Returns the updated session together with the events sent to the
embedder. -/
def update_title (s : MediaSession) (title : String) :
    MediaSession × List MediaSessionEvent :=
  match s.metadata with
  | some metadata =>
      -- We only update the title with the data provided by the media
      -- player and iff the user did not provide a title.
      if ¬metadata.title.isEmpty then (s, [])
      else
        let upd := { metadata with title := title }
        ({ s with metadata := some upd },
          [MediaSessionEvent.SetMetadata upd])
  | none =>
      let upd := EmbedderMediaMetadata.new title
      ({ s with metadata := some upd },
        [MediaSessionEvent.SetMetadata upd])

/-- Embeds `MediaSession::PlaybackState` (mediasession.rs lines 175-177). -/
def PlaybackState (s : MediaSession) : MediaSessionPlaybackState :=
  s.playback_state

/-- Embeds `MediaSession::SetPlaybackState` (mediasession.rs lines
180-182). -/
def SetPlaybackState (s : MediaSession) (state : MediaSessionPlaybackState) :
    MediaSession :=
  { s with playback_state := state }

/-- The candidate "passes validation": duration present and non-negative,
position (when present) in `[0, duration]`, playbackRate (when present)
strictly positive. This is the success condition of the five ordered
checks of `SetPositionState`. -/
def passesValidation (state : MediaPositionState) : Bool :=
  match state.duration with
  | some d =>
      decide (0 ≤ d) &&
      (match state.position with
       | some p => decide (0 ≤ p) && decide (p ≤ d)
       | none => true) &&
      (match state.playbackRate with
       | some r => decide (0 < r)
       | none => true)
  | none => false

/-! Theorems -/

/-- C1: for every position-state candidate with at least one of duration,
position, playbackRate present, `SetPositionState` applies the five
remaining checks in order and returns the error of the first failing
check: absent duration, negative duration, negative position, position
greater than duration, non-positive playbackRate — each with its fixed
message — and otherwise validation passes; the playbackRate check is
reached only after the duration and position checks pass. -/
theorem C1_ordered_validation (mi : Option HTMLMediaElement)
    (state : MediaPositionState)
    (hne : ¬(state.duration = none ∧ state.position = none ∧
      state.playbackRate = none)) :
    (state.duration = none →
      (SetPositionState mi state).result =
        Except.error
          (Error.typeError "duration is not present or its value is null")) ∧
    (∀ d, state.duration = some d → d < 0 →
      (SetPositionState mi state).result =
        Except.error (Error.typeError "duration is negative")) ∧
    (∀ d p, state.duration = some d → 0 ≤ d → state.position = some p →
      p < 0 →
      (SetPositionState mi state).result =
        Except.error (Error.typeError "position is negative")) ∧
    (∀ d p, state.duration = some d → 0 ≤ d → state.position = some p →
      0 ≤ p → p > d →
      (SetPositionState mi state).result =
        Except.error (Error.typeError "position is greater than duration")) ∧
    (∀ d r, state.duration = some d → 0 ≤ d →
      (∀ p, state.position = some p → 0 ≤ p ∧ p ≤ d) →
      state.playbackRate = some r → r ≤ 0 →
      (SetPositionState mi state).result =
        Except.error (Error.typeError "playbackRate is zero")) ∧
    (passesValidation state = true →
      (SetPositionState none state).result = Except.ok ()) := by
  obtain ⟨od, op, orr⟩ := state
  refine ⟨?_, ?_, ?_, ?_, ?_, ?_⟩
  · intro hd
    subst hd
    have h2 : ¬(op = none ∧ orr = none) := fun hc => hne ⟨rfl, hc.1, hc.2⟩
    simp [SetPositionState, h2]
  · rintro d rfl hdneg
    simp [SetPositionState, hdneg, not_le.mpr hdneg]
  · rintro d p rfl hd rfl hpneg
    simp [SetPositionState, not_lt.mpr hd, hpneg]
  · rintro d p rfl hd rfl hp hpd
    simp [SetPositionState, not_lt.mpr hd, not_lt.mpr hp, hpd]
  · rintro d r rfl hd hpos rfl hr
    cases op with
    | none => simp [SetPositionState, not_lt.mpr hd, hr]
    | some p =>
        obtain ⟨hp0, hpd⟩ := hpos p rfl
        simp [SetPositionState, not_lt.mpr hd, not_lt.mpr hp0,
          not_lt.mpr hpd, hr]
  · intro hpass
    cases od with
    | none => simp [passesValidation] at hpass
    | some d =>
        cases op with
        | none =>
            cases orr with
            | none =>
                simp [passesValidation] at hpass
                simp [SetPositionState, not_lt.mpr hpass]
            | some r =>
                simp [passesValidation] at hpass
                obtain ⟨hd, hr⟩ := hpass
                simp [SetPositionState, not_lt.mpr hd, not_le.mpr hr]
        | some p =>
            cases orr with
            | none =>
                simp [passesValidation] at hpass
                obtain ⟨hd, hp0, hpd⟩ := hpass
                simp [SetPositionState, not_lt.mpr hd, not_lt.mpr hp0,
                  not_lt.mpr hpd]
            | some r =>
                simp only [passesValidation, Bool.and_eq_true,
                  decide_eq_true_eq] at hpass
                obtain ⟨⟨hd, hp0, hpd⟩, hr⟩ := hpass
                simp [SetPositionState, not_lt.mpr hd, not_lt.mpr hp0,
                  not_lt.mpr hpd, not_le.mpr hr]

/-- Witness for C1 at a concrete input: duration present and negative. -/
theorem C1_ordered_validation_witness :
    (SetPositionState none ⟨some (-5), none, none⟩).result =
      Except.error (Error.typeError "duration is negative") :=
  (C1_ordered_validation none ⟨some (-5), none, none⟩
    (by simp)).2.1 (-5) rfl (by norm_num)

/-- A concrete playback instance whose `SetPlaybackRate` accepts every
rate. -/
def acceptingElem : HTMLMediaElement :=
  { duration := 0, playbackRate := 1, currentTime := 0, paused := true,
    positionTrackingActive := true, rejectsRate := fun _ => false }

/-- A concrete playback instance whose `SetPlaybackRate` rejects every
rate. -/
def rejectingElem : HTMLMediaElement :=
  { duration := 0, playbackRate := 1, currentTime := 0, paused := true,
    positionTrackingActive := true, rejectsRate := fun _ => true }

/-- C2: with all three fields absent, `SetPositionState` succeeds, calls
`reset` (position-tracking reset) on the bound instance when one is bound
and makes no call when none is bound, skips all validation, and touches no
other field of the instance. -/
theorem C2_clear_path (mi : Option HTMLMediaElement)
    (state : MediaPositionState)
    (h : state.duration = none ∧ state.position = none ∧
      state.playbackRate = none) :
    (SetPositionState mi state).result = Except.ok () ∧
    (mi = none → (SetPositionState mi state).mediaInstance = none ∧
      (SetPositionState mi state).calls = []) ∧
    (∀ m, mi = some m →
      (SetPositionState mi state).mediaInstance = some m.reset ∧
      (SetPositionState mi state).calls =
        [InstanceCall.resetPositionTracking] ∧
      m.reset.duration = m.duration ∧
      m.reset.playbackRate = m.playbackRate ∧
      m.reset.currentTime = m.currentTime ∧
      m.reset.paused = m.paused ∧
      m.reset.rejectsRate = m.rejectsRate) := by
  obtain ⟨hd, hp, hr⟩ := h
  cases mi with
  | none => simp [SetPositionState, hd, hp, hr]
  | some m => simp [SetPositionState, hd, hp, hr, HTMLMediaElement.reset]

/-- Witness for C2 at a concrete input: an instance is bound, the call
succeeds and only the position-tracking reset happens. -/
theorem C2_clear_path_witness :
    (SetPositionState (some acceptingElem) ⟨none, none, none⟩).result =
      Except.ok () ∧
    (SetPositionState (some acceptingElem) ⟨none, none, none⟩).calls =
      [InstanceCall.resetPositionTracking] :=
  ⟨(C2_clear_path (some acceptingElem) ⟨none, none, none⟩
      ⟨rfl, rfl, rfl⟩).1,
    ((C2_clear_path (some acceptingElem) ⟨none, none, none⟩
      ⟨rfl, rfl, rfl⟩).2.2 acceptingElem rfl).2.1⟩

/-- On a candidate that passes validation, `SetPositionState` reaches its
final branch: no call and success when no instance is bound, otherwise the
duration/rate/time update sequence. -/
lemma SetPositionState_of_passes (mi : Option HTMLMediaElement)
    (state : MediaPositionState) (h : passesValidation state = true) :
    SetPositionState mi state =
      match mi with
      | some m =>
          match (m.set_duration (state.duration.getD 0)).SetPlaybackRate
              (state.playbackRate.getD 1) with
          | (Except.error e, m2) =>
              ⟨Except.error e, some m2,
                [InstanceCall.setDuration (state.duration.getD 0),
                 InstanceCall.setPlaybackRate (state.playbackRate.getD 1)]⟩
          | (Except.ok (), m2) =>
              ⟨Except.ok (),
                some (m2.SetCurrentTime (state.position.getD 0)),
                [InstanceCall.setDuration (state.duration.getD 0),
                 InstanceCall.setPlaybackRate (state.playbackRate.getD 1),
                 InstanceCall.setCurrentTime (state.position.getD 0)]⟩
      | none => ⟨Except.ok (), none, []⟩ := by
  obtain ⟨od, op, orr⟩ := state
  cases od with
  | none => simp [passesValidation] at h
  | some d =>
    cases op with
    | none =>
      cases orr with
      | none =>
          simp only [passesValidation, Bool.and_eq_true, Bool.and_true,
            decide_eq_true_eq] at h
          simp [SetPositionState, not_lt.mpr h]
      | some r =>
          simp only [passesValidation, Bool.and_eq_true, Bool.and_true,
            decide_eq_true_eq] at h
          obtain ⟨hd, hr⟩ := h
          simp [SetPositionState, not_lt.mpr hd, not_le.mpr hr]
    | some p =>
      cases orr with
      | none =>
          simp only [passesValidation, Bool.and_eq_true, Bool.and_true,
            decide_eq_true_eq] at h
          obtain ⟨hd, hp0, hpd⟩ := h
          simp [SetPositionState, not_lt.mpr hd, not_lt.mpr hp0,
            not_lt.mpr hpd]
      | some r =>
          simp only [passesValidation, Bool.and_eq_true, Bool.and_true,
            decide_eq_true_eq] at h
          obtain ⟨⟨hd, hp0, hpd⟩, hr⟩ := h
          simp [SetPositionState, not_lt.mpr hd, not_lt.mpr hp0,
            not_lt.mpr hpd, not_le.mpr hr]

/-- C3: for every candidate that passes validation, with no instance bound
the call succeeds with no instance calls; with an instance bound it sets
the duration, then the playback rate (default 1 when absent, propagating a
rejection), then the current time (default 0 when absent). -/
theorem C3_success_path (state : MediaPositionState)
    (h : passesValidation state = true) :
    SetPositionState none state = ⟨Except.ok (), none, []⟩ ∧
    ∀ m : HTMLMediaElement,
      (m.rejectsRate (state.playbackRate.getD 1) = true →
        SetPositionState (some m) state =
          ⟨Except.error Error.rateRejected,
            some (m.set_duration (state.duration.getD 0)),
            [InstanceCall.setDuration (state.duration.getD 0),
             InstanceCall.setPlaybackRate (state.playbackRate.getD 1)]⟩) ∧
      (m.rejectsRate (state.playbackRate.getD 1) = false →
        SetPositionState (some m) state =
          ⟨Except.ok (),
            some { m with
                    duration := state.duration.getD 0,
                    playbackRate := state.playbackRate.getD 1,
                    currentTime := state.position.getD 0 },
            [InstanceCall.setDuration (state.duration.getD 0),
             InstanceCall.setPlaybackRate (state.playbackRate.getD 1),
             InstanceCall.setCurrentTime (state.position.getD 0)]⟩) := by
  refine ⟨by rw [SetPositionState_of_passes none state h], fun m => ⟨?_, ?_⟩⟩
  · intro hrej
    rw [SetPositionState_of_passes (some m) state h]
    simp [HTMLMediaElement.set_duration, HTMLMediaElement.SetPlaybackRate,
      HTMLMediaElement.SetCurrentTime, hrej]
  · intro hrej
    rw [SetPositionState_of_passes (some m) state h]
    simp [HTMLMediaElement.set_duration, HTMLMediaElement.SetPlaybackRate,
      HTMLMediaElement.SetCurrentTime, hrej]

/-- Witness for C3 at a concrete input: duration 100 only; the rate
defaults to 1 and the position to 0. -/
theorem C3_success_path_witness :
    SetPositionState (some acceptingElem) ⟨some 100, none, none⟩ =
      ⟨Except.ok (),
        some { acceptingElem with
                duration := 100,
                playbackRate := 1,
                currentTime := 0 },
        [InstanceCall.setDuration 100, InstanceCall.setPlaybackRate 1,
         InstanceCall.setCurrentTime 0]⟩ :=
  ((C3_success_path ⟨some 100, none, none⟩ (by decide)).2
    acceptingElem).2 rfl

/-- On a candidate that fails validation, `SetPositionState` either took
the clear path (all three fields absent, success) or returned one of the
fixed validation errors with the instance untouched and no calls made. -/
lemma SetPositionState_of_fails (mi : Option HTMLMediaElement)
    (state : MediaPositionState) (h : passesValidation state = false) :
    (state.duration = none ∧ state.position = none ∧
      state.playbackRate = none ∧
      (SetPositionState mi state).result = Except.ok ()) ∨
    (∃ msg, SetPositionState mi state =
      ⟨Except.error (Error.typeError msg), mi, []⟩) := by
  obtain ⟨od, op, orr⟩ := state
  by_cases h1 : od = none ∧ op = none ∧ orr = none
  · left
    obtain ⟨rfl, rfl, rfl⟩ := h1
    refine ⟨rfl, rfl, rfl, ?_⟩
    cases mi <;> simp [SetPositionState]
  · right
    cases od with
    | none =>
        have h1a : ¬(op = none ∧ orr = none) := fun hc => h1 ⟨rfl, hc.1, hc.2⟩
        exact ⟨"duration is not present or its value is null",
          by simp [SetPositionState, h1a]⟩
    | some d =>
        by_cases h2 : d < 0
        · exact ⟨"duration is negative", by simp [SetPositionState, h1, h2]⟩
        · push_neg at h2
          cases op with
          | some p =>
              by_cases h3 : p < 0
              · exact ⟨"position is negative",
                  by simp [SetPositionState, h1, not_lt.mpr h2, h3]⟩
              · push_neg at h3
                by_cases h4 : p > d
                · exact ⟨"position is greater than duration",
                    by simp [SetPositionState, h1, not_lt.mpr h2,
                      not_lt.mpr h3, h4]⟩
                · push_neg at h4
                  cases orr with
                  | some r =>
                      by_cases h5 : r ≤ 0
                      · exact ⟨"playbackRate is zero",
                          by simp [SetPositionState, h1, not_lt.mpr h2,
                            not_lt.mpr h3, not_lt.mpr h4, h5]⟩
                      · exfalso
                        push_neg at h5
                        simp [passesValidation, h2, h3, h4, h5] at h
                  | none =>
                      exfalso
                      simp [passesValidation, h2, h3, h4] at h
          | none =>
              cases orr with
              | some r =>
                  by_cases h5 : r ≤ 0
                  · exact ⟨"playbackRate is zero",
                      by simp [SetPositionState, h1, not_lt.mpr h2, h5]⟩
                  · exfalso
                    push_neg at h5
                    simp [passesValidation, h2, h5] at h
              | none =>
                  exfalso
                  simp [passesValidation, h2] at h

/-- C7 (amended): whenever `SetPositionState` returns one of the five
validation errors, the bound instance and the call trace are untouched;
but a propagated playback-rate rejection happens after the instance's
duration was already set, so on that error path the instance is left with
its duration field (and only that field) updated to the candidate's
duration. -/
theorem C7_atomicity_amended (mi : Option HTMLMediaElement)
    (state : MediaPositionState) :
    (∀ msg, (SetPositionState mi state).result =
        Except.error (Error.typeError msg) →
      (SetPositionState mi state).mediaInstance = mi ∧
      (SetPositionState mi state).calls = []) ∧
    (∀ m, mi = some m →
      (SetPositionState mi state).result = Except.error Error.rateRejected →
      (SetPositionState mi state).mediaInstance =
        some (m.set_duration (state.duration.getD 0)) ∧
      m.set_duration (state.duration.getD 0) =
        { m with duration := state.duration.getD 0 }) := by
  constructor
  · intro msg hres
    by_cases hpass : passesValidation state = true
    · exfalso
      rw [SetPositionState_of_passes mi state hpass] at hres
      cases mi with
      | none => simp at hres
      | some m =>
          cases hrej : m.rejectsRate (state.playbackRate.getD 1) with
          | true =>
              simp [HTMLMediaElement.SetPlaybackRate,
                HTMLMediaElement.set_duration, hrej] at hres
          | false =>
              simp [HTMLMediaElement.SetPlaybackRate,
                HTMLMediaElement.set_duration, hrej] at hres
    · rcases SetPositionState_of_fails mi state
          (by simpa using hpass) with hclear | ⟨msg2, heq⟩
      · rw [hclear.2.2.2] at hres
        simp at hres
      · rw [heq]
        exact ⟨rfl, rfl⟩
  · rintro m rfl hres
    by_cases hpass : passesValidation state = true
    · rw [SetPositionState_of_passes (some m) state hpass] at hres ⊢
      cases hrej : m.rejectsRate (state.playbackRate.getD 1) with
      | false =>
          exfalso
          simp [HTMLMediaElement.SetPlaybackRate,
            HTMLMediaElement.set_duration, hrej] at hres
      | true =>
          refine ⟨?_, rfl⟩
          simp [HTMLMediaElement.SetPlaybackRate,
            HTMLMediaElement.set_duration, hrej]
    · exfalso
      rcases SetPositionState_of_fails (some m) state
          (by simpa using hpass) with hclear | ⟨msg, heq⟩
      · rw [hclear.2.2.2] at hres
        simp at hres
      · rw [heq] at hres
        simp at hres

/-- Witness for C7 (amended) at a concrete input: a negative duration is
rejected and the bound instance and call trace are untouched. -/
theorem C7_atomicity_amended_witness :
    (SetPositionState (some acceptingElem)
        ⟨some (-1), none, none⟩).mediaInstance = some acceptingElem ∧
    (SetPositionState (some acceptingElem) ⟨some (-1), none, none⟩).calls =
      [] :=
  (C7_atomicity_amended (some acceptingElem) ⟨some (-1), none, none⟩).1
    "duration is negative" rfl

/-- C7 counterexample: with a bound instance that rejects the rate, the
call `SetPositionState {duration := 100, playbackRate := 2}` returns the
propagated rate-rejection error, yet the instance's duration has been
changed from 0 to 100 — the failed call did not leave the instance
unchanged. -/
theorem C7_counterexample :
    (SetPositionState (some rejectingElem) ⟨some 100, none, some 2⟩).result =
      Except.error Error.rateRejected ∧
    (SetPositionState (some rejectingElem)
        ⟨some 100, none, some 2⟩).mediaInstance.map HTMLMediaElement.duration
      = some 100 ∧
    rejectingElem.duration = 0 ∧ (100 : ℚ) ≠ 0 :=
  ⟨rfl, rfl, rfl, by norm_num⟩

/-- A registry with no handler registered for any action. -/
def noHandlers : MediaSessionActionType → Option Handler := fun _ => none

/-- A registry with a failing handler registered for every action. -/
def failingHandlers : MediaSessionActionType → Option Handler :=
  fun _ => some ⟨false⟩

/-- A registry with a succeeding handler registered only for `Play`. -/
def playHandlerOnly : MediaSessionActionType → Option Handler :=
  fun action =>
    match action with
    | MediaSessionActionType.Play => some ⟨true⟩
    | _ => none

/-- C4: when a custom handler is registered for the action, `handle_action`
invokes it and returns: the instance binding is untouched, no instance
call (default behavior) happens, and a failing invocation only adds the
warning log — the error is not propagated (the method has no error
output). -/
theorem C4_handler_intercepts
    (handlers : MediaSessionActionType → Option Handler)
    (mi : Option HTMLMediaElement) (action : MediaSessionActionType)
    (handler : Handler) (h : handlers action = some handler) :
    (handle_action handlers mi action).mediaInstance = mi ∧
    (handle_action handlers mi action).effects =
      ActionEffect.invokeHandler action ::
        (if handler.succeeds then [] else [ActionEffect.warnHandlerError]) ∧
    ∀ c, ActionEffect.instanceCall c ∉ (handle_action handlers mi action).effects := by
  cases hs : handler.succeeds <;> simp [handle_action, h, hs]

/-- Witness for C4 at a concrete input: a failing handler for `Play` is
invoked, the warning is logged, no default behavior runs. -/
theorem C4_handler_intercepts_witness :
    (handle_action failingHandlers (some acceptingElem)
        MediaSessionActionType.Play).effects =
      [ActionEffect.invokeHandler MediaSessionActionType.Play,
       ActionEffect.warnHandlerError] ∧
    (handle_action failingHandlers (some acceptingElem)
        MediaSessionActionType.Play).mediaInstance = some acceptingElem := by
  have h := C4_handler_intercepts failingHandlers (some acceptingElem)
    MediaSessionActionType.Play ⟨false⟩ rfl
  exact ⟨h.2.1, h.1⟩

/-- C5 counterexample: with no instance bound but a handler registered for
`Play`, `handle_action` is not a no-op — it invokes the registered
handler, contradicting the claim that no registered handler is invoked
when no instance is bound. -/
theorem C5_counterexample :
    (handle_action playHandlerOnly none MediaSessionActionType.Play).effects =
      [ActionEffect.invokeHandler MediaSessionActionType.Play] ∧
    (handle_action playHandlerOnly none
        MediaSessionActionType.Play).effects ≠ [] := by
  constructor <;> simp [handle_action, playHandlerOnly]

/-- C5 (amended): when no playback instance is bound and no custom handler
is registered for the action, `handle_action` is a no-op; a registered
handler, however, is invoked even when no instance is bound. -/
theorem C5_amended_noop
    (handlers : MediaSessionActionType → Option Handler)
    (action : MediaSessionActionType) (h : handlers action = none) :
    handle_action handlers none action = ⟨none, []⟩ := by
  cases action <;> simp [handle_action, h]

/-- Witness for C5 (amended) at a concrete input. -/
theorem C5_amended_noop_witness :
    handle_action noHandlers none MediaSessionActionType.SeekTo =
      ⟨none, []⟩ :=
  C5_amended_noop noHandlers MediaSessionActionType.SeekTo rfl

/-- C6: with no custom handler registered and an instance bound,
`handle_action` performs exactly the default behavior: `Play` invokes the
instance's play operation, `Pause` its pause operation, and every other
action performs no operation on the instance. -/
theorem C6_default_behavior
    (handlers : MediaSessionActionType → Option Handler)
    (m : HTMLMediaElement) (action : MediaSessionActionType)
    (h : handlers action = none) :
    (action = MediaSessionActionType.Play →
      handle_action handlers (some m) action =
        ⟨some m.Play, [ActionEffect.instanceCall InstanceCall.play]⟩) ∧
    (action = MediaSessionActionType.Pause →
      handle_action handlers (some m) action =
        ⟨some m.Pause, [ActionEffect.instanceCall InstanceCall.pause]⟩) ∧
    (action ≠ MediaSessionActionType.Play →
      action ≠ MediaSessionActionType.Pause →
      handle_action handlers (some m) action = ⟨some m, []⟩) := by
  refine ⟨?_, ?_, ?_⟩
  · rintro rfl
    simp [handle_action, h]
  · rintro rfl
    simp [handle_action, h]
  · intro h1 h2
    cases action <;>
      first
        | exact absurd rfl h1
        | exact absurd rfl h2
        | simp [handle_action, h]

/-- Witness for C6 at concrete inputs: default `Play` plays the instance;
default `SeekBackward` is a no-op on the instance. -/
theorem C6_default_behavior_witness :
    handle_action noHandlers (some acceptingElem)
        MediaSessionActionType.Play =
      ⟨some acceptingElem.Play, [ActionEffect.instanceCall InstanceCall.play]⟩ ∧
    handle_action noHandlers (some acceptingElem)
        MediaSessionActionType.SeekBackward = ⟨some acceptingElem, []⟩ :=
  ⟨(C6_default_behavior noHandlers acceptingElem
      MediaSessionActionType.Play rfl).1 rfl,
   (C6_default_behavior noHandlers acceptingElem
      MediaSessionActionType.SeekBackward rfl).2.2
      (by simp) (by simp)⟩

/-- C8: `SetMetadata` always overwrites the stored metadata and emits a
`SetMetadata` notification with the stored value: with no candidate it
stores title = page URL and empty artist/album (and `GetMetadata` then
returns a metadata whose title is the page URL); with an empty-title
candidate the title falls back to the page URL; with a non-empty title
the candidate is stored as given. -/
theorem C8_set_metadata (s : MediaSession) (url : String) :
    (SetMetadata s url none).1.metadata =
      some (EmbedderMediaMetadata.new url) ∧
    (SetMetadata s url none).2 =
      [MediaSessionEvent.SetMetadata (EmbedderMediaMetadata.new url)] ∧
    GetMetadata (SetMetadata s url none).1 =
      some { title := url, artist := "", album := "" } ∧
    (∀ m : MediaMetadata, m.title = "" →
      (SetMetadata s url (some m)).1.metadata =
        some { title := url, artist := m.artist, album := m.album } ∧
      (SetMetadata s url (some m)).2 =
        [MediaSessionEvent.SetMetadata
          { title := url, artist := m.artist, album := m.album }]) ∧
    (∀ m : MediaMetadata, m.title ≠ "" →
      (SetMetadata s url (some m)).1.metadata =
        some { title := m.title, artist := m.artist, album := m.album } ∧
      (SetMetadata s url (some m)).2 =
        [MediaSessionEvent.SetMetadata
          { title := m.title, artist := m.artist, album := m.album }]) := by
  refine ⟨rfl, rfl, rfl, ?_, ?_⟩
  · intro m hm
    have he : m.title.isEmpty = true := (String.isEmpty_iff m.title).mpr hm
    simp [SetMetadata, he]
  · intro m hm
    have he : m.title.isEmpty = false :=
      Bool.eq_false_iff.mpr
        (fun hie => hm ((String.isEmpty_iff m.title).mp hie))
    simp [SetMetadata, he]

/-- Witness for C8 at concrete inputs: all three shapes of candidate. -/
theorem C8_set_metadata_witness :
    GetMetadata (SetMetadata ⟨some ⟨"old", "a", "b"⟩,
        MediaSessionPlaybackState.Playing⟩ "https://servo.org/" none).1 =
      some { title := "https://servo.org/", artist := "", album := "" } ∧
    (SetMetadata ⟨none, MediaSessionPlaybackState.None⟩ "https://servo.org/"
        (some ⟨"", "a", "b"⟩)).1.metadata =
      some { title := "https://servo.org/", artist := "a", album := "b" } ∧
    (SetMetadata ⟨none, MediaSessionPlaybackState.None⟩ "https://servo.org/"
        (some ⟨"T", "a", "b"⟩)).1.metadata =
      some { title := "T", artist := "a", album := "b" } :=
  ⟨(C8_set_metadata ⟨some ⟨"old", "a", "b"⟩,
      MediaSessionPlaybackState.Playing⟩ "https://servo.org/").2.2.1,
   ((C8_set_metadata ⟨none, MediaSessionPlaybackState.None⟩
      "https://servo.org/").2.2.2.1 ⟨"", "a", "b"⟩ rfl).1,
   ((C8_set_metadata ⟨none, MediaSessionPlaybackState.None⟩
      "https://servo.org/").2.2.2.2 ⟨"T", "a", "b"⟩ (by decide)).1⟩

/-- C9: `update_title` (the default/player path) preserves title
precedence: with no stored metadata it creates one from the given title;
with stored metadata whose title is non-empty it is a no-op (no state
change, no notification) — in particular a title stored by an external
`SetMetadata` with non-empty title is never clobbered; with stored
metadata whose title is empty it sets the title and emits the
notification. -/
theorem C9_update_title_precedence (s : MediaSession) (t : String) :
    (s.metadata = none →
      update_title s t =
        ({ s with metadata := some (EmbedderMediaMetadata.new t) },
         [MediaSessionEvent.SetMetadata (EmbedderMediaMetadata.new t)])) ∧
    (∀ em, s.metadata = some em → em.title ≠ "" →
      update_title s t = (s, [])) ∧
    (∀ em, s.metadata = some em → em.title = "" →
      update_title s t =
        ({ s with metadata := some { em with title := t } },
         [MediaSessionEvent.SetMetadata { em with title := t }])) ∧
    (∀ (url : String) (m : MediaMetadata), m.title ≠ "" →
      update_title (SetMetadata s url (some m)).1 t =
        ((SetMetadata s url (some m)).1, [])) := by
  refine ⟨?_, ?_, ?_, ?_⟩
  · intro h
    simp [update_title, h]
  · intro em h hne
    have he : em.title.isEmpty = false :=
      Bool.eq_false_iff.mpr
        (fun hie => hne ((String.isEmpty_iff em.title).mp hie))
    simp [update_title, h, he]
  · intro em h he0
    have he : em.title.isEmpty = true := (String.isEmpty_iff em.title).mpr he0
    simp [update_title, h, he]
  · intro url m hm
    have he : m.title.isEmpty = false :=
      Bool.eq_false_iff.mpr
        (fun hie => hm ((String.isEmpty_iff m.title).mp hie))
    simp [update_title, SetMetadata, he]

/-- Witness for C9 at concrete inputs: a non-empty stored title makes the
player-path update a no-op, also when it was stored via `SetMetadata`. -/
theorem C9_update_title_precedence_witness :
    update_title ⟨some ⟨"user title", "", ""⟩, MediaSessionPlaybackState.None⟩
        "player title" =
      (⟨some ⟨"user title", "", ""⟩, MediaSessionPlaybackState.None⟩, []) ∧
    update_title (SetMetadata ⟨none, MediaSessionPlaybackState.None⟩
        "https://servo.org/" (some ⟨"T", "a", "b"⟩)).1 "player title" =
      ((SetMetadata ⟨none, MediaSessionPlaybackState.None⟩
        "https://servo.org/" (some ⟨"T", "a", "b"⟩)).1, []) :=
  ⟨(C9_update_title_precedence
      ⟨some ⟨"user title", "", ""⟩, MediaSessionPlaybackState.None⟩
      "player title").2.1 ⟨"user title", "", ""⟩ rfl (by decide),
   (C9_update_title_precedence ⟨none, MediaSessionPlaybackState.None⟩
      "player title").2.2.2 "https://servo.org/" ⟨"T", "a", "b"⟩ (by decide)⟩

/-- C10: when `update_title` runs with no stored metadata, it both creates
the metadata from the given title and emits a `SetMetadata` notification
carrying the newly created value — emission is not limited to the branch
that overwrites an empty stored title. -/
theorem C10_creation_emits (s : MediaSession) (t : String)
    (h : s.metadata = none) :
    (update_title s t).2 =
      [MediaSessionEvent.SetMetadata (EmbedderMediaMetadata.new t)] ∧
    (update_title s t).1.metadata = some (EmbedderMediaMetadata.new t) := by
  constructor <;> simp [update_title, h]

/-- Witness for C10 at a concrete input. -/
theorem C10_creation_emits_witness :
    (update_title ⟨none, MediaSessionPlaybackState.None⟩ "title").2 =
      [MediaSessionEvent.SetMetadata (EmbedderMediaMetadata.new "title")] :=
  (C10_creation_emits ⟨none, MediaSessionPlaybackState.None⟩ "title" rfl).1

end MediaSessionModel
